import Mathlib

/-!
Verification development for the generic criteria-to-predicate query engine
of `app/domain/repository/base.py` (class `BaseRepository`): dotted-path
column resolution, operator application with type coercion, recursive
criteria parsing (structured / positional / legacy string syntaxes), query
assembly, and pagination.

Modelling conventions:
* Untyped (Python) values are the closed variant `PyVal`
  (None / bool / int / str / list / dict-as-association-list); lists and
  dicts are the mutually inductive `PyList` / `PyDict` so that every
  function on them is structurally recursive (and hence computable by the
  kernel). `pyL` / `pyD` build them from ordinary Lean lists.
  Floating point columns are outside the model; the column types that the
  engine's coercion distinguishes (`str`, `bool`, everything else, here
  represented by `int`) are covered.
* `fastapi.HTTPException(status_code, detail)` is `RepoError.http status detail`;
  a non-HTTP Python exception escaping the function (e.g. `ZeroDivisionError`)
  is `RepoError.py msg`.
* Fallible code returns `Except RepoError _`.
* SQLAlchemy predicate objects are the deep syntax `SqlPred`, evaluated against
  in-memory rows by `evalPred` (SQL three-valued logic reduced to "row passes
  the WHERE clause": NULL comparisons do not pass).
* `column.like("%" ++ v ++ "%")` / `ilike` are embedded as the substring
  predicates `SqlPred.plike` / `SqlPred.pilike` carrying `v` (the source always
  wraps the value with `%...%`, so the wildcard mechanism collapses to a
  substring test; values containing `%` or `_` are outside the model).
-/

/-! ## String primitives

Core `String` functions (`splitOn`, `toLower`, `trim`, `startsWith`, ...)
are implemented over byte positions and do not reduce inside the kernel, so
the engine's string manipulation is re-implemented here over `String.data`
(the underlying character list), keeping every definition computable by
`rfl`/`decide`. All separators the source splits on (`.` `,` `:`) are single
characters. -/

/-- Python `str.split(sep)` on the character list (keeps empty pieces). -/
def splitChars (sep : Char) : List Char → List (List Char)
  | [] => [[]]
  | c :: cs =>
      match splitChars sep cs with
      | [] => [[]]
      | h :: t => if c = sep then [] :: h :: t else (c :: h) :: t

/-- Python `s.split(sep)` producing strings. -/
def strSplit (s : String) (sep : Char) : List String :=
  (splitChars sep s.data).map (fun cs => ⟨cs⟩)

def splitFirstChars (sep : Char) : List Char → Option (List Char × List Char)
  | [] => Option.none
  | c :: cs =>
      if c = sep then some ([], cs)
      else (splitFirstChars sep cs).map (fun p => (c :: p.1, p.2))

/-- Python `s.split(sep, 1)`: `Option.none` when the separator is absent,
else the part before the first occurrence and everything after it. -/
def strSplitFirst (s : String) (sep : Char) : Option (String × String) :=
  (splitFirstChars sep s.data).map (fun p => (⟨p.1⟩, ⟨p.2⟩))

/-- ASCII lowercasing, Python `str.lower()` on the engine's inputs. -/
def strLower (s : String) : String := ⟨s.data.map Char.toLower⟩

/-- The whitespace Python `str.strip()` removes. -/
def isPyWS (c : Char) : Bool :=
  c = ' ' ∨ c = '\t' ∨ c = '\n' ∨ c = '\r' ∨ c = '\x0b' ∨ c = '\x0c'

/-- Python `str.strip()`. -/
def strStrip (s : String) : String :=
  ⟨((s.data.dropWhile isPyWS).reverse.dropWhile isPyWS).reverse⟩

def charsLead : List Char → List Char → Bool
  | [], _ => true
  | _ :: _, [] => false
  | a :: as, b :: bs => a = b && charsLead as bs

/-- Python `s.startswith(pre)`. -/
def strStarts (s pre : String) : Bool := charsLead pre.data s.data

/-- Python `s.endswith(suf)`. -/
def strEnds (s suf : String) : Bool := charsLead suf.data.reverse s.data.reverse

/-- Python `s[n:]`. -/
def strDropLeft (s : String) (n : Nat) : String := ⟨s.data.drop n⟩

/-- Python `s[:-n]` (for `n` at most the length). -/
def strDropRight (s : String) (n : Nat) : String :=
  ⟨s.data.take (s.data.length - n)⟩

def charDigit : Char → Option Nat := fun c =>
  if '0' ≤ c ∧ c ≤ '9' then some (c.toNat - 48) else Option.none

def parseDigitsAux : List Char → Nat → Option Nat
  | [], acc => some acc
  | c :: cs, acc =>
      match charDigit c with
      | some d => parseDigitsAux cs (acc * 10 + d)
      | Option.none => Option.none

/-- Python `int(s)` on plain decimal literals: surrounding whitespace is
stripped, an optional sign precedes a nonempty digit run; anything else
raises `ValueError` (`Option.none`). Underscore digit grouping is outside
the model. -/
def pyIntOfStr (s : String) : Option Int :=
  match (strStrip s).data with
  | '-' :: rest =>
      match rest with
      | [] => Option.none
      | _ => (parseDigitsAux rest 0).map (fun n => -(n : Int))
  | '+' :: rest =>
      match rest with
      | [] => Option.none
      | _ => (parseDigitsAux rest 0).map (fun n => (n : Int))
  | [] => Option.none
  | rest => (parseDigitsAux rest 0).map (fun n => (n : Int))

def digitChar (n : Nat) : Char := Char.ofNat (48 + n)

def natToCharsAux : Nat → Nat → List Char
  | 0, _ => []
  | fuel + 1, n =>
      if n < 10 then [digitChar n]
      else natToCharsAux fuel (n / 10) ++ [digitChar (n % 10)]

/-- Decimal rendering of a natural number (kernel-computable `toString`). -/
def natStr (n : Nat) : String := ⟨natToCharsAux (n + 1) n⟩

/-- Decimal rendering of an integer, Python `str(i)`. -/
def intStr : Int → String
  | .ofNat n => natStr n
  | .negSucc n => "-" ++ natStr (n + 1)

mutual

/-- Closed variant for untyped Python values flowing through the engine. -/
inductive PyVal where
  | none : PyVal
  | bool (b : Bool) : PyVal
  | int (n : Int) : PyVal
  | str (s : String) : PyVal
  | list (xs : PyList) : PyVal
  | dict (kvs : PyDict) : PyVal
deriving DecidableEq

/-- A Python list of `PyVal`s. -/
inductive PyList where
  | nil : PyList
  | cons (x : PyVal) (xs : PyList) : PyList
deriving DecidableEq

/-- A Python dict with string keys, as an ordered association structure
(Python dicts have unique keys; lookup returns the first occurrence). -/
inductive PyDict where
  | dnil : PyDict
  | dcons (k : String) (v : PyVal) (kvs : PyDict) : PyDict
deriving DecidableEq

end

/-- Build a `PyList` from a Lean list literal. -/
def pyL : List PyVal → PyList
  | [] => .nil
  | x :: xs => .cons x (pyL xs)

/-- Build a `PyDict` from a Lean list of key/value pairs. -/
def pyD : List (String × PyVal) → PyDict
  | [] => .dnil
  | (k, v) :: t => .dcons k v (pyD t)

/-- The Lean list underlying a `PyList`. -/
def PyList.toList : PyList → List PyVal
  | .nil => []
  | .cons x xs => x :: xs.toList

/-- First value stored under a key, Python's `d[k]`. -/
def pyLookup (key : String) : PyDict → Option PyVal
  | .dnil => Option.none
  | .dcons k v t => if k = key then some v else pyLookup key t

/-- Python's `key in dict`. -/
def hasKey (key : String) : PyDict → Bool
  | .dnil => false
  | .dcons k _ t => k = key || hasKey key t

/-- Python truthiness (`if value:`): `None`, `False`, `0`, `""`, `[]`, `{}`
are falsy, everything else truthy. -/
def pyTruthy : PyVal → Bool
  | .none => false
  | .bool b => b
  | .int n => n != 0
  | .str s => s != ""
  | .list .nil => false
  | .list (.cons _ _) => true
  | .dict .dnil => false
  | .dict (.dcons _ _ _) => true

/-- Python `str(value)` for the scalar values the engine interpolates into
messages and patterns (container rendering is approximated). -/
def pyStr : PyVal → String
  | .none => "None"
  | .bool b => if b then "True" else "False"
  | .int n => intStr n
  | .str s => s
  | .list _ => "[...]"
  | .dict _ => "{...}"

/-- The `python_type` of a column as used by the engine: the source falls back
to `str` when `column.type.python_type` is unavailable, so an opaque column
type is represented directly by `pstr`. -/
inductive PyType where
  | pstr : PyType
  | pint : PyType
  | pbool : PyType
deriving DecidableEq

/-- Python `isinstance(value, python_type)`. Note `isinstance(True, int)` is
`True` in Python (`bool` is a subclass of `int`). -/
def isInstanceOf (v : PyVal) : PyType → Bool
  | .pstr => match v with | .str _ => true | _ => false
  | .pbool => match v with | .bool _ => true | _ => false
  | .pint => match v with | .int _ => true | .bool _ => true | _ => false

/-- Python `python_type(value)` as a partial conversion: `Option.none` models
the conversion raising `ValueError`/`TypeError`. `int(...)` is modelled on
plain decimal string literals, booleans and ints. -/
def pyConvert : PyType → PyVal → Option PyVal
  | .pstr, v => some (.str (pyStr v))
  | .pbool, v => some (.bool (pyTruthy v))
  | .pint, .int n => some (.int n)
  | .pint, .bool b => some (.int (if b then 1 else 0))
  | .pint, .str s => match pyIntOfStr s with
      | some n => some (.int n)
      | Option.none => Option.none
  | .pint, _ => Option.none

/-- Python's lowercased membership test
`value.lower() in ("true", "1", "yes")`. -/
def isTrueWord (s : String) : Bool :=
  let l := strLower s
  l = "true" ∨ l = "1" ∨ l = "yes"

/-- Errors surfaced by the engine: `http` is `fastapi.HTTPException`,
`py` an ordinary Python exception escaping uncaught. -/
inductive RepoError where
  | http (status : Nat) (detail : String) : RepoError
  | py (msg : String) : RepoError
deriving DecidableEq

/-- Python `str(e)`: Starlette's `HTTPException.__str__` renders
`f"{status_code}: {detail}"`; a plain exception renders its message. -/
def errStr : RepoError → String
  | .http status detail => natStr status ++ ": " ++ detail
  | .py msg => msg

/-- A resolved column descriptor: owning entity name, column name and the
column's `python_type`. -/
structure ColumnD where
  entity : String
  cname : String
  pyty : PyType
deriving DecidableEq

/-- `str(column)` used in the operator-application error message
(SQLAlchemy renders a bound column as `table.column`). -/
def colStr (c : ColumnD) : String := c.entity ++ "." ++ c.cname

/-! Diagnostic messages of the engine, named so that statements can cite
them in the exact shape the code produces. -/

/-- `f"'{part}' is not a valid field or relation on '{current_model.__name__}'"` -/
def unresolvableMsg (part entName : String) : String :=
  "'" ++ part ++ "' is not a valid field or relation on '" ++ entName ++ "'"

/-- `f"Column not found for path '{path}'"` -/
def columnNotFoundMsg (path : String) : String :=
  "Column not found for path '" ++ path ++ "'"

/-- `f"Unsupported operator: {operator}"` -/
def unsupportedOpMsg (op : String) : String := "Unsupported operator: " ++ op

/-- `f"Error applying operator '{operator}' to field '{column}' with value '{value}': {str(e)}"` -/
def wrapMsg (opS fieldS valS causeS : String) : String :=
  "Error applying operator '" ++ opS ++ "' to field '" ++ fieldS ++
    "' with value '" ++ valS ++ "': " ++ causeS

/-- `f"Invalid value '{raw_value}' for field '{field_path}'"` -/
def invalidValueMsg (raw fieldPath : String) : String :=
  "Invalid value '" ++ raw ++ "' for field '" ++ fieldPath ++ "'"

/-- `f"Invalid format: '{param}'"` -/
def invalidFormatMsg (param : String) : String := "Invalid format: '" ++ param ++ "'"

/-- `f"Invalid sortby format: '{param}'"` -/
def invalidSortFmtMsg (param : String) : String :=
  "Invalid sortby format: '" ++ param ++ "'"

/-- `f"Invalid sort order '{direction}'"` -/
def invalidSortOrdMsg (direction : String) : String :=
  "Invalid sort order '" ++ direction ++ "'"

/-- Static schema metadata for one queryable entity type: columns with their
python types and declared relations (name of the target entity). -/
structure EntityDesc where
  name : String
  columns : List (String × PyType)
  rels : List (String × String)

/-- A schema: entity descriptors by entity (class) name, the reflective
counterpart of the SQLAlchemy mapper registry. -/
abbrev Schema := List (String × EntityDesc)

def lookupCol (part : String) (ent : EntityDesc) : Option PyType :=
  ent.columns.lookup part

def lookupRel (part : String) (ent : EntityDesc) : Option String :=
  ent.rels.lookup part

def lookupEnt (name : String) (sch : Schema) : Option EntityDesc :=
  sch.lookup name

/-- SQLAlchemy predicate objects built by the engine (deep embedding).
`and_(*preds)` / `or_(*preds)` are folded to the binary
conjunction/disjunction via `andOf` / `orOf`. -/
inductive SqlPred where
  | ptrue : SqlPred
  | eq (c : ColumnD) (v : PyVal) : SqlPred
  | ne (c : ColumnD) (v : PyVal) : SqlPred
  | gt (c : ColumnD) (v : PyVal) : SqlPred
  | ge (c : ColumnD) (v : PyVal) : SqlPred
  | lt (c : ColumnD) (v : PyVal) : SqlPred
  | le (c : ColumnD) (v : PyVal) : SqlPred
  | plike (c : ColumnD) (sub : String) : SqlPred
  | pilike (c : ColumnD) (sub : String) : SqlPred
  | pnot (p : SqlPred) : SqlPred
  | pin (c : ColumnD) (vs : PyList) : SqlPred
  | isNull (c : ColumnD) : SqlPred
  | isNotNull (c : ColumnD) : SqlPred
  | pand (p q : SqlPred) : SqlPred
  | por (p q : SqlPred) : SqlPred
deriving DecidableEq

/-- `and_(*ps)` as a right fold of binary conjunction. -/
def andOf : List SqlPred → SqlPred
  | [] => .ptrue
  | [p] => p
  | p :: ps => .pand p (andOf ps)

/-- `or_(*ps)` as a right fold of binary disjunction. -/
def orOf : List SqlPred → SqlPred
  | [] => .ptrue
  | [p] => p
  | p :: ps => .por p (orOf ps)

/-! ## Entity Metadata Accessor: `get_column_by_path` -/

/-- The loop body of `get_column_by_path`: walks the remaining path segments
carrying the mutable `column` variable (last column match seen) and the
current model. A column hit on the final segment breaks and returns; a column
hit earlier records the column but does not advance the model; a relation hit
advances the model; any other segment raises 400. After the loop, a `None`
column raises the column-not-found 400. -/
def goPath (sch : Schema) (path : String) :
    List String → EntityDesc → Option ColumnD → Except RepoError ColumnD
  | [], _, col =>
      match col with
      | some c => .ok c
      | Option.none => .error (.http 400 (columnNotFoundMsg path))
  | part :: rest, ent, col =>
      match lookupCol part ent with
      | some ty =>
          match rest with
          | [] => .ok ⟨ent.name, part, ty⟩
          | _ => goPath sch path rest ent (some ⟨ent.name, part, ty⟩)
      | Option.none =>
          match lookupRel part ent with
          | some target =>
              match lookupEnt target sch with
              | some ent2 => goPath sch path rest ent2 col
              | Option.none => .error (.py ("unmapped relation target '" ++ target ++ "'"))
          | Option.none =>
              .error (.http 400 (unresolvableMsg part ent.name))

/-- `get_column_by_path(path)`: split on `.` and walk. -/
def getColumnByPath (sch : Schema) (ent : EntityDesc) (path : String) :
    Except RepoError ColumnD :=
  goPath sch path (strSplit path '.') ent Option.none

/-- Specification-side walk: descends only through declared relations
(each hop's segment names a relation, not a column, and the target entity is
mapped). Used to state the path-resolution claims. -/
def walkRels (sch : Schema) : EntityDesc → List String → Option EntityDesc
  | ent, [] => some ent
  | ent, s :: ss =>
      match lookupCol s ent with
      | some _ => Option.none
      | Option.none =>
          match lookupRel s ent with
          | some t =>
              match lookupEnt t sch with
              | some e2 => walkRels sch e2 ss
              | Option.none => Option.none
          | Option.none => Option.none

/-! ## Operator Evaluator: `apply_operator` -/

/-- Boolean-column coercion of a non-bool value: a string goes through the
`true/1/yes` test, anything else through Python truthiness (`bool(value)`). -/
def pyBoolCoerce : PyVal → PyVal
  | .str s => .bool (isTrueWord s)
  | v => .bool (pyTruthy v)

/-- `python_type(value)` inside `try: ... except (ValueError, TypeError): pass`:
the converted value when conversion succeeds, the original value otherwise. -/
def tryConvert (pyty : PyType) (value : PyVal) : PyVal :=
  match pyConvert pyty value with
  | some v => v
  | Option.none => value

/-- The coercion prologue of `apply_operator` (lines 118-132): boolean columns
turn a string into the `true/1/yes` test and any other non-bool into Python
truthiness; other non-string column types attempt a direct conversion when the
value is not already an instance of the type, silently keeping the original
value when conversion raises `ValueError`/`TypeError`. -/
def coerceValue (pyty : PyType) (value : PyVal) : PyVal :=
  if pyty = .pbool ∧ ¬ isInstanceOf value .pbool then pyBoolCoerce value
  else if pyty ≠ .pstr ∧ ¬ isInstanceOf value pyty then tryConvert pyty value
  else value

/-- `value` is a Python sequence in the sense of the
`isinstance(value, (list, tuple))` test guarding `in`/`not_in`. -/
def isPySeq : PyVal → Bool
  | .list _ => true
  | _ => false

/-- The body of `apply_operator`'s outer `try`: coercion, lowering of the
operator token, then dispatch. The operator argument is the raw Python value
(a non-string operator crashes at `operator.lower()`). -/
def applyOperatorInner (col : ColumnD) (operatorV : PyVal) (value0 : PyVal) :
    Except RepoError SqlPred :=
  let value := coerceValue col.pyty value0
  match operatorV with
  | .str opRaw =>
      let op := strLower opRaw
      if op = "=" ∨ op = "==" ∨ op = "eq" then .ok (.eq col value)
      else if op = "!=" ∨ op = "<>" ∨ op = "ne" then .ok (.ne col value)
      else if op = ">" ∨ op = "gt" then .ok (.gt col value)
      else if op = ">=" ∨ op = "gte" then .ok (.ge col value)
      else if op = "<" ∨ op = "lt" then .ok (.lt col value)
      else if op = "<=" ∨ op = "lte" then .ok (.le col value)
      else if op = "like" then .ok (.plike col (pyStr value))
      else if op = "ilike" then .ok (.pilike col (pyStr value))
      else if op = "not_like" then .ok (.pnot (.plike col (pyStr value)))
      else if op = "not_ilike" then .ok (.pnot (.pilike col (pyStr value)))
      else if op = "in" then
        match value with
        | .list xs => .ok (.pin col xs)
        | _ => .error (.http 400 "'in' operator requires a list/array value")
      else if op = "not_in" then
        match value with
        | .list xs => .ok (.pnot (.pin col xs))
        | _ => .error (.http 400 "'not_in' operator requires a list/array value")
      else if op = "is_null" then .ok (.isNull col)
      else if op = "is_not_null" then .ok (.isNotNull col)
      else .error (.http 400 (unsupportedOpMsg op))
  | other =>
      .error (.py ("AttributeError: '" ++ pyStr other ++ "' object has no attribute 'lower'"))

/-- The operator token as it appears in the wrapping error message: by the
time any inner exception is raised the `operator` variable has already been
reassigned to its lowercase form (when it was a string at all). -/
def displayOp : PyVal → String
  | .str s => strLower s
  | v => pyStr v

/-- `apply_operator`: the whole body sits in a `try` whose
`except Exception` re-raises every failure — including the inner
`HTTPException`s — as the catch-all 400 carrying operator, field,
(coerced) value and `str(e)`. -/
def applyOperator (col : ColumnD) (operatorV : PyVal) (value0 : PyVal) :
    Except RepoError SqlPred :=
  match applyOperatorInner col operatorV value0 with
  | .ok p => .ok p
  | .error e =>
      .error (.http 400
        (wrapMsg (displayOp operatorV) (colStr col)
          (pyStr (coerceValue col.pyty value0)) (errStr e)))

/-! ## Criteria Parser: legacy string syntax (`parse_legacy_criteria`) -/

/-- One `field:value` pair of the legacy syntax (`parse_condition_str`):
split on the first `:`, resolve the field path, then build the predicate —
string columns become a case-insensitive substring match, boolean columns the
`true/1/yes` test, other columns a direct conversion whose failure raises the
invalid-value 400. The column resolution happens outside the value `try`, so
its errors propagate unwrapped. -/
def parseConditionStr (sch : Schema) (ent : EntityDesc) (param : String) :
    Except RepoError SqlPred :=
  match strSplitFirst param ':' with
  | some (fieldPath, rawValue) => do
      let col ← getColumnByPath sch ent fieldPath
      match col.pyty with
      | .pstr => .ok (.pilike col rawValue)
      | .pbool => .ok (.eq col (.bool (isTrueWord rawValue)))
      | .pint =>
          match pyConvert .pint (.str rawValue) with
          | some v => .ok (.eq col v)
          | Option.none =>
              .error (.http 400 (invalidValueMsg rawValue fieldPath))
  | Option.none => .error (.http 400 (invalidFormatMsg param))

/-- Parse each comma-separated legacy part (stripped) in order; the first
failing part's error propagates, as in the Python list comprehension. -/
def parsePartsStr (sch : Schema) (ent : EntityDesc) :
    List String → Except RepoError (List SqlPred)
  | [] => .ok []
  | p :: ps => do
      let pr ← parseConditionStr sch ent (strStrip p)
      let rest ← parsePartsStr sch ent ps
      .ok (pr :: rest)

/-- `parse_legacy_criteria`: optional `and(...)` / `or(...)` wrapper (default
combinator AND), comma-separated `field:value` pairs. -/
def parseLegacyCriteria (sch : Schema) (ent : EntityDesc) (criteria : String) :
    Except RepoError SqlPred :=
  if strStarts criteria "and(" ∧ strEnds criteria ")" then
    (parsePartsStr sch ent (strSplit (strDropRight (strDropLeft criteria 4) 1) ',')).map andOf
  else if strStarts criteria "or(" ∧ strEnds criteria ")" then
    (parsePartsStr sch ent (strSplit (strDropRight (strDropLeft criteria 3) 1) ',')).map orOf
  else
    (parsePartsStr sch ent (strSplit criteria ',')).map andOf

/-! ## Criteria Parser: flat conditions (`parse_condition`) -/

/-- The tail of `parse_condition` shared by both surface shapes: resolve the
field path, then apply the operator. A non-string field crashes at
`field.split('.')` before any resolution. -/
def finishCondition (sch : Schema) (ent : EntityDesc)
    (field operatorV value : PyVal) : Except RepoError SqlPred :=
  match field with
  | .str fp => do
      let col ← getColumnByPath sch ent fp
      applyOperator col operatorV value
  | other =>
      .error (.py ("AttributeError: '" ++ pyStr other ++ "' object has no attribute 'split'"))

/-- `parse_condition`: dict shape `{field, operator?, value?}` (operator
defaults to `=`, value to `None`) or positional shape `[field, value]` /
`[field, operator, value]`. -/
def parseCondition (sch : Schema) (ent : EntityDesc) (condition : PyVal) :
    Except RepoError SqlPred :=
  match condition with
  | .dict kvs =>
      match pyLookup "field" kvs with
      | Option.none => .error (.http 400 "Dict condition must have 'field' key")
      | some field =>
          let operatorV := (pyLookup "operator" kvs).getD (.str "=")
          let value := (pyLookup "value" kvs).getD .none
          finishCondition sch ent field operatorV value
  | .list (.cons f (.cons v .nil)) => finishCondition sch ent f (.str "=") v
  | .list (.cons f (.cons o (.cons v .nil))) => finishCondition sch ent f o v
  | .list _ => .error (.http 400 "Array condition must have 2 or 3 elements: [field, value] or [field, operator, value]")
  | _ => .error (.http 400 "Condition must be either dict or array format")

/-! ## Criteria Parser: recursive entry point (`parse_criteria`) -/

mutual

/-- `parse_criteria`: strings go to the legacy parser, lists to
`parse_condition`; a dict with an `and` key combines that key's children
with AND — checked first, so a simultaneous `or` key is ignored — else an
`or` key combines with OR, else the dict is a flat condition; any other value
is the invalid-criteria 400. -/
def parseCriteria (sch : Schema) (ent : EntityDesc) :
    PyVal → Except RepoError SqlPred
  | .str s => parseLegacyCriteria sch ent s
  | .list xs => parseCondition sch ent (.list xs)
  | .dict kvs =>
      if hasKey "and" kvs then scanCombine sch ent "and" true kvs
      else if hasKey "or" kvs then scanCombine sch ent "or" false kvs
      else parseCondition sch ent (.dict kvs)
  | .none => .error (.http 400 "Invalid criteria format")
  | .bool _ => .error (.http 400 "Invalid criteria format")
  | .int _ => .error (.http 400 "Invalid criteria format")

/-- Find the (unique) entry under `key` and combine its value's recursively
parsed children via `combineArm`. The `dnil` case is unreachable under the
`hasKey` guard. -/
def scanCombine (sch : Schema) (ent : EntityDesc) (key : String) (isAnd : Bool) :
    PyDict → Except RepoError SqlPred
  | .dnil => .error (.py ("KeyError: " ++ key))
  | .dcons k v t =>
      if k = key then combineArm sch ent isAnd v
      else scanCombine sch ent key isAnd t

/-- The combining arm of `parse_criteria` for one composite entry value:
iterate the children (the engine only ever iterates list-valued composites;
iterating any other value — Python would iterate a string's characters or a
dict's keys — is modelled as the non-iterable type error), parse each, fold
with AND (`isAnd`) or OR. -/
def combineArm (sch : Schema) (ent : EntityDesc) (isAnd : Bool) :
    PyVal → Except RepoError SqlPred
  | .list l =>
      match parseChildren sch ent l with
      | .ok ps => .ok (if isAnd then andOf ps else orOf ps)
      | .error e => .error e
  | other =>
      .error (.py ("TypeError: '" ++ pyStr other ++ "' object is not iterable"))

/-- Parse every child of a composite in order, propagating the first error
(the Python `for` loop appends as it goes). -/
def parseChildren (sch : Schema) (ent : EntityDesc) :
    PyList → Except RepoError (List SqlPred)
  | .nil => .ok []
  | .cons x xs =>
      match parseCriteria sch ent x with
      | .error e => .error e
      | .ok p =>
          match parseChildren sch ent xs with
          | .error e => .error e
          | .ok ps => .ok (p :: ps)

end

/-! ## Predicate evaluation over in-memory rows

The claims compare predicates by the row sets they match. A `Row` assigns
values to `(entity, column)` cells; a missing cell reads as SQL NULL.
Evaluation reduces SQL's three-valued WHERE semantics to "the row passes":
comparisons involving NULL do not pass, `AND`/`OR` combine passing
booleanly (which coincides with three-valued TRUE-ness for these
connectives). Comparisons are scalar and same-typed, as produced by the
engine's coercion; `pnot` is evaluated as boolean complement (the claims
never evaluate negated NULL comparisons, where SQL would differ). -/

abbrev Row := List ((String × String) × PyVal)

def rowGet : Row → String → String → PyVal
  | [], _, _ => .none
  | ((e, c), v) :: t, ent, cn => if e = ent ∧ c = cn then v else rowGet t ent cn

def getCell (row : Row) (c : ColumnD) : PyVal := rowGet row c.entity c.cname

def isNone : PyVal → Bool
  | .none => true
  | _ => false

/-- Scalar equality as the SQL backend compares bound parameters
(same-type scalars; a NULL operand never compares equal). -/
def pyEq : PyVal → PyVal → Bool
  | .str a, .str b => a = b
  | .int a, .int b => a = b
  | .bool a, .bool b => a = b
  | _, _ => false

def charsLt : List Char → List Char → Bool
  | [], [] => false
  | [], _ :: _ => true
  | _ :: _, [] => false
  | a :: as, b :: bs => a < b || (a = b && charsLt as bs)

/-- Scalar ordering (lexicographic for strings); incomparable pairs are
unordered. -/
def pyLtB : PyVal → PyVal → Bool
  | .int a, .int b => a < b
  | .str a, .str b => charsLt a.data b.data
  | _, _ => false

def charsInfix (needle : List Char) : List Char → Bool
  | [] => needle.isEmpty
  | c :: rest => charsLead needle (c :: rest) || charsInfix needle rest

/-- `hay LIKE '%needle%'`: substring containment. -/
def strContains (hay needle : String) : Bool := charsInfix needle.data hay.data

/-- `hay ILIKE '%needle%'`: case-insensitive substring containment. -/
def strContainsCI (hay needle : String) : Bool :=
  charsInfix (strLower needle).data (strLower hay).data

def pinAny (cell : PyVal) : PyList → Bool
  | .nil => false
  | .cons x xs => pyEq cell x || pinAny cell xs

def evalPred : SqlPred → Row → Bool
  | .ptrue, _ => true
  | .eq c v, row =>
      let cell := getCell row c
      !isNone cell && !isNone v && pyEq cell v
  | .ne c v, row =>
      let cell := getCell row c
      !isNone cell && !isNone v && !pyEq cell v
  | .gt c v, row =>
      let cell := getCell row c
      !isNone cell && !isNone v && pyLtB v cell
  | .ge c v, row =>
      let cell := getCell row c
      !isNone cell && !isNone v && (pyLtB v cell || pyEq cell v)
  | .lt c v, row =>
      let cell := getCell row c
      !isNone cell && !isNone v && pyLtB cell v
  | .le c v, row =>
      let cell := getCell row c
      !isNone cell && !isNone v && (pyLtB cell v || pyEq cell v)
  | .plike c sub, row =>
      let cell := getCell row c
      !isNone cell && strContains (pyStr cell) sub
  | .pilike c sub, row =>
      let cell := getCell row c
      !isNone cell && strContainsCI (pyStr cell) sub
  | .pnot p, row => !evalPred p row
  | .pin c vs, row =>
      let cell := getCell row c
      !isNone cell && pinAny cell vs
  | .isNull c, row => isNone (getCell row c)
  | .isNotNull c, row => !isNone (getCell row c)
  | .pand p q, row => evalPred p row && evalPred q row
  | .por p q, row => evalPred p row || evalPred q row

/-! ## Query Assembler: `build_filter_query` -/

/-- The executable query built by `build_filter_query`: eager-load hints
(passed through unvalidated), the optional WHERE predicate and the ORDER BY
terms (column, descending?). -/
structure QueryPlan where
  load : List String
  pred : Option SqlPred
  order : List (ColumnD × Bool)
deriving DecidableEq

/-- The string branch of the `sortby` loop: comma-separated
`field:direction` pairs; a pair without `:` or with a direction other than
`asc`/`desc` is a 400, the field resolves via `get_column_by_path` before
the direction is checked. -/
def parseSortStr (sch : Schema) (ent : EntityDesc) :
    List String → Except RepoError (List (ColumnD × Bool))
  | [] => .ok []
  | param :: ps =>
      match strSplitFirst param ':' with
      | Option.none => .error (.http 400 (invalidSortFmtMsg param))
      | some (fieldPath, direction) => do
          let col ← getColumnByPath sch ent fieldPath
          let dsc ←
            if direction = "asc" then Except.ok false
            else if direction = "desc" then Except.ok true
            else Except.error (RepoError.http 400 (invalidSortOrdMsg direction))
          let rest ← parseSortStr sch ent ps
          .ok ((col, dsc) :: rest)

/-- The list branch of the `sortby` loop: items must be 2-element
`[field, direction]` pairs. -/
def parseSortList (sch : Schema) (ent : EntityDesc) :
    PyList → Except RepoError (List (ColumnD × Bool))
  | .nil => .ok []
  | .cons item items =>
      match item with
      | .list (.cons f (.cons d .nil)) => do
          let col ←
            match f with
            | .str fp => getColumnByPath sch ent fp
            | other =>
                .error (.py ("AttributeError: '" ++ pyStr other ++ "' object has no attribute 'split'"))
          let dsc ←
            match d with
            | .str "asc" => Except.ok false
            | .str "desc" => Except.ok true
            | other => Except.error (RepoError.http 400 (invalidSortOrdMsg (pyStr other)))
          let rest ← parseSortList sch ent items
          .ok ((col, dsc) :: rest)
      | .list _ => .error (.http 400 "Sort item must have exactly 2 elements: [field, direction]")
      | other =>
          .error (.py ("TypeError: object of type '" ++ pyStr other ++ "' has no len()"))

/-- The `sortby` handling of `build_filter_query`: skipped for falsy values;
a truthy value that is neither a string nor a list silently contributes no
ordering (it falls through both `isinstance` branches). -/
def buildSort (sch : Schema) (ent : EntityDesc) (sortby : PyVal) :
    Except RepoError (List (ColumnD × Bool)) :=
  if pyTruthy sortby then
    match sortby with
    | .str s => parseSortStr sch ent (strSplit s ',')
    | .list items => parseSortList sch ent items
    | _ => .ok []
  else .ok []

/-- `build_filter_query(load, criteria=..., sortby=...)`: starts from
`select(model)` with the load hints, attaches the parsed criteria predicate
only when the criteria value is truthy (so parsing — and any parse error —
is skipped entirely for falsy criteria), then the ordering. -/
def buildFilterQuery (sch : Schema) (ent : EntityDesc) (load : List String)
    (criteria sortby : PyVal) : Except RepoError QueryPlan := do
  let pred? ←
    if pyTruthy criteria then (parseCriteria sch ent criteria).map some
    else pure (Option.none)
  let order ← buildSort sch ent sortby
  pure ⟨load, pred?, order⟩

/-- A row passes the built query's WHERE clause (no criteria: every row). -/
def rowMatches (q : QueryPlan) (row : Row) : Bool :=
  match q.pred with
  | Option.none => true
  | some p => evalPred p row

/-! ## Paginator: `paginate` / `paginate_async` -/

/-- ORDER BY comparison: first key deciding; equal keys fall through to the
next (ties beyond the sort spec keep dataset order — the sort below is
stable). -/
def rowLe (order : List (ColumnD × Bool)) (r1 r2 : Row) : Bool :=
  match order with
  | [] => true
  | (c, dsc) :: rest =>
      let a := getCell r1 c
      let b := getCell r2 c
      if pyEq a b then rowLe rest r1 r2
      else if dsc then pyLtB b a else pyLtB a b

def insertSorted (le : Row → Row → Bool) (x : Row) : List Row → List Row
  | [] => [x]
  | y :: ys => if le x y then x :: y :: ys else y :: insertSorted le x ys

/-- Stable insertion sort modelling the backend's ORDER BY. -/
def sortRows (le : Row → Row → Bool) : List Row → List Row
  | [] => []
  | x :: xs => insertSorted le x (sortRows le xs)

/-- The derived count query: same filter, `order_by(None)`, `func.count()`. -/
def countRows (q : QueryPlan) (ds : List Row) : Nat :=
  (ds.filter (fun r => rowMatches q r)).length

/-- The windowed data query: WHERE, ORDER BY, OFFSET `skip`, LIMIT `limit`. -/
def runData (q : QueryPlan) (ds : List Row) (skip limit : Nat) : List Row :=
  ((sortRows (rowLe q.order) (ds.filter (fun r => rowMatches q r))).drop skip).take limit

/-- `ceil(total / limit)` on naturals (`limit > 0`). -/
def natCeilDiv (a b : Nat) : Nat := (a + b - 1) / b

/-- The `{"data": ..., "metas": {...}}` result of `paginate`, flattened. -/
structure Page where
  data : List Row
  total : Nat
  per_page : Nat
  current_page : Nat
  total_pages : Nat
deriving DecidableEq

/-- `paginate(skip, limit, **filters)` over a dataset standing for the
session's table (non-negative `skip`/`limit`, as the spec requires of
callers): builds the query, runs the count query, runs the windowed data
query, then assembles the metadata dict. Its entries evaluate in source
order — `total`, `per_page`, then `current_page`, whose `(skip // limit) + 1`
divides by `limit` unguarded, so `limit == 0` raises `ZeroDivisionError`
there before the guarded `total_pages` entry (`... if limit else 1`) is
reached. -/
def paginate (sch : Schema) (ent : EntityDesc) (ds : List Row)
    (skip limit : Nat) (load : List String) (criteria sortby : PyVal) :
    Except RepoError Page := do
  let q ← buildFilterQuery sch ent load criteria sortby
  let total := countRows q ds
  let data := runData q ds skip limit
  if limit = 0 then
    .error (.py "ZeroDivisionError: integer division or modulo by zero")
  else
    .ok ⟨data, total, limit, skip / limit + 1, natCeilDiv total limit⟩

/-- `paginate_async`: the awaited twin of `paginate`. Over a pure dataset
the async session's `execute(...).scalar()` yields the same count as the
sync `exec(...).one()` and `execute(...).scalars().all()` the same rows as
`exec(...).all()`, and the query construction and metadata arithmetic are
line-for-line the same, so the body coincides with `paginate`'s. -/
def paginateAsync (sch : Schema) (ent : EntityDesc) (ds : List Row)
    (skip limit : Nat) (load : List String) (criteria sortby : PyVal) :
    Except RepoError Page := do
  let q ← buildFilterQuery sch ent load criteria sortby
  let total := countRows q ds
  let data := runData q ds skip limit
  if limit = 0 then
    .error (.py "ZeroDivisionError: integer division or modulo by zero")
  else
    .ok ⟨data, total, limit, skip / limit + 1, natCeilDiv total limit⟩

/-! ## Statement-side helpers and concrete fixtures -/

/-- Fixture: a third-level entity for depth-2 relation paths. -/
def demoGroup : EntityDesc := ⟨"CategoryGroup", [("group_name", .pstr)], []⟩

/-- Fixture: the category entity, with a relation one level deeper. -/
def demoCategory : EntityDesc :=
  ⟨"ProductCategory", [("category_name", .pstr)], [("group", "CategoryGroup")]⟩

/-- Fixture: the product entity (string, integer and boolean columns and a
declared relation), patterned on the repository's `Product` model. -/
def demoProduct : EntityDesc :=
  ⟨"Product", [("product_name", .pstr), ("stock", .pint), ("is_active", .pbool)],
    [("category", "ProductCategory")]⟩

def demoSchema : Schema :=
  [("Product", demoProduct), ("ProductCategory", demoCategory),
   ("CategoryGroup", demoGroup)]

def prodNameCol : ColumnD := ⟨"Product", "product_name", .pstr⟩

def stockCol : ColumnD := ⟨"Product", "stock", .pint⟩

def rowPaid : Row := [(("Product", "product_name"), .str "paid")]

def rowUnpaid : Row := [(("Product", "product_name"), .str "unpaid")]

/-! ## Supporting lemmas -/

theorem hasKey_of_pyLookup (key : String) :
    ∀ (kvs : PyDict) (av : PyVal),
      pyLookup key kvs = some av → hasKey key kvs = true
  | .dnil, av, h => by simp [pyLookup] at h
  | .dcons k v t, av, h => by
      by_cases hk : k = key
      · simp [hasKey, hk]
      · simp only [pyLookup, if_neg hk] at h
        have ih := hasKey_of_pyLookup key t av h
        simp [hasKey, hk, ih]

theorem scanCombine_eq (sch : Schema) (ent : EntityDesc) (key : String)
    (isAnd : Bool) :
    ∀ (kvs : PyDict) (av : PyVal), pyLookup key kvs = some av →
      scanCombine sch ent key isAnd kvs = combineArm sch ent isAnd av
  | .dnil, av, h => by simp [pyLookup] at h
  | .dcons k v t, av, h => by
      by_cases hk : k = key
      · simp only [pyLookup, if_pos hk, Option.some.injEq] at h
        subst h
        rw [show scanCombine sch ent key isAnd (.dcons k v t) =
            if k = key then combineArm sch ent isAnd v
            else scanCombine sch ent key isAnd t from rfl, if_pos hk]
      · simp only [pyLookup, if_neg hk] at h
        rw [show scanCombine sch ent key isAnd (.dcons k v t) =
            if k = key then combineArm sch ent isAnd v
            else scanCombine sch ent key isAnd t from rfl, if_neg hk]
        exact scanCombine_eq sch ent key isAnd t av h

theorem goPath_walk (sch : Schema) (path : String) :
    ∀ (front : List String) (ent ent' : EntityDesc),
      walkRels sch ent front = some ent' →
      ∀ rest : List String,
        goPath sch path (front ++ rest) ent Option.none =
          goPath sch path rest ent' Option.none := by
  intro front
  induction front with
  | nil =>
      intro ent ent' h rest
      simp only [walkRels, Option.some.injEq] at h
      subst h
      rfl
  | cons s fr ih =>
      intro ent ent' h rest
      cases hc : lookupCol s ent with
      | some ty =>
          simp only [walkRels, hc] at h
          exact Option.noConfusion h
      | none =>
          cases hr : lookupRel s ent with
          | none =>
              simp only [walkRels, hc, hr] at h
              exact Option.noConfusion h
          | some t =>
              cases he : lookupEnt t sch with
              | none =>
                  simp only [walkRels, hc, hr, he] at h
                  exact Option.noConfusion h
              | some e2 =>
                  simp only [walkRels, hc, hr, he] at h
                  have step : goPath sch path ((s :: fr) ++ rest) ent Option.none =
                      goPath sch path (fr ++ rest) e2 Option.none := by
                    simp only [List.cons_append, goPath, hc, hr, he, List.append_eq]
                  rw [step]
                  exact ih e2 ent' h rest

theorem pyConvert_not_seq : ∀ (t : PyType) (v w : PyVal),
    pyConvert t v = some w → isPySeq w = false := by
  intro t v w h
  cases t with
  | pstr => simp [pyConvert] at h; subst h; rfl
  | pbool => simp [pyConvert] at h; subst h; rfl
  | pint =>
      cases v with
      | int n => simp [pyConvert] at h; subst h; rfl
      | bool b => simp [pyConvert] at h; subst h; rfl
      | str s =>
          cases hi : pyIntOfStr s with
          | none => simp [pyConvert, hi] at h
          | some n => simp [pyConvert, hi] at h; subst h; rfl
      | none => simp [pyConvert] at h
      | list xs => simp [pyConvert] at h
      | dict kvs => simp [pyConvert] at h

theorem coerce_not_seq (t : PyType) (v : PyVal) (h : isPySeq v = false) :
    isPySeq (coerceValue t v) = false := by
  rw [coerceValue]
  by_cases h1 : t = PyType.pbool ∧ ¬ isInstanceOf v .pbool = true
  · rw [if_pos h1]
    cases v <;> rfl
  · rw [if_neg h1]
    by_cases h2 : t ≠ PyType.pstr ∧ ¬ isInstanceOf v t = true
    · rw [if_pos h2, tryConvert]
      cases hc : pyConvert t v with
      | none => exact h
      | some w => exact pyConvert_not_seq t v w hc
    · rw [if_neg h2]
      exact h

/-! ## The claims -/

/-- C1: with `limit == 0`, `paginate` does not return a `Page` at all:
the unguarded `(skip // limit) + 1` in the `current_page` metadata entry
raises `ZeroDivisionError` (the spec's guarded `current_page`/`total_pages`
behaviour is implemented only for `total_pages`). -/
theorem c1_paginate_zero_limit_raises (sch : Schema) (ent : EntityDesc)
    (ds : List Row) (skip : Nat) (load : List String) :
    paginate sch ent ds skip 0 load .none (.str "") =
      .error (.py "ZeroDivisionError: integer division or modulo by zero") := rfl

/-- C8: for identical inputs over the same dataset, the blocking `paginate`
and the awaited `paginate_async` produce identical results — the two bodies
build the same query, the same count and the same window, and compute the
same metadata. -/
theorem c8_sync_async_agree (sch : Schema) (ent : EntityDesc) (ds : List Row)
    (skip limit : Nat) (load : List String) (criteria sortby : PyVal) :
    paginate sch ent ds skip limit load criteria sortby =
      paginateAsync sch ent ds skip limit load criteria sortby := rfl

/-- C10: a falsy criteria value (`None`, `""`, `{}`, `[]`, `0`, `False`)
makes `build_filter_query` behave exactly as if no criteria were supplied:
criteria parsing is skipped entirely (the query equals the no-criteria
query, so no parse error can arise) and the built query carries no WHERE
predicate, hence selects every row. -/
theorem c10_falsy_criteria_skips_filter (sch : Schema) (ent : EntityDesc)
    (load : List String) (sortby criteria : PyVal)
    (h : pyTruthy criteria = false) :
    buildFilterQuery sch ent load criteria sortby =
      buildFilterQuery sch ent load .none sortby ∧
    ∀ q : QueryPlan, buildFilterQuery sch ent load criteria sortby = .ok q →
      q.pred = Option.none ∧ ∀ row : Row, rowMatches q row = true := by
  have h0 : pyTruthy PyVal.none = false := rfl
  have h1 : buildFilterQuery sch ent load criteria sortby =
      buildFilterQuery sch ent load .none sortby := by
    simp [buildFilterQuery, h, h0]
  refine ⟨h1, ?_⟩
  intro q hq
  rw [h1] at hq
  cases hb : buildSort sch ent sortby with
  | error e =>
      rw [show buildFilterQuery sch ent load PyVal.none sortby = .error e by
        simp [buildFilterQuery, h0, hb]] at hq
      exact absurd hq (by simp)
  | ok ord =>
      rw [show buildFilterQuery sch ent load PyVal.none sortby =
          .ok ⟨load, Option.none, ord⟩ by
        simp [buildFilterQuery, h0, hb]] at hq
      cases hq
      exact ⟨rfl, fun row => rfl⟩

theorem c10_witness :
    buildFilterQuery demoSchema demoProduct [] (.dict .dnil) (.str "") =
      buildFilterQuery demoSchema demoProduct [] .none (.str "") :=
  (c10_falsy_criteria_skips_filter demoSchema demoProduct [] (.str "")
    (.dict .dnil) rfl).1

/-- C9: a mapping criteria containing both an `and` and an `or` key is
parsed from its `and` children alone — `parse_criteria` tests `'and' in
criteria` first — and the `or` entry is silently ignored; no error is
raised for the double-keyed mapping itself (the result only depends on the
`and` children). -/
theorem c9_and_wins_over_or (sch : Schema) (ent : EntityDesc) (kvs : PyDict)
    (av : PyVal) (ha : pyLookup "and" kvs = some av)
    (ho : hasKey "or" kvs = true) :
    parseCriteria sch ent (.dict kvs) = combineArm sch ent true av := by
  have hk : hasKey "and" kvs = true := hasKey_of_pyLookup _ _ _ ha
  rw [show parseCriteria sch ent (.dict kvs) =
      (if hasKey "and" kvs then scanCombine sch ent "and" true kvs
       else if hasKey "or" kvs then scanCombine sch ent "or" false kvs
       else parseCondition sch ent (.dict kvs)) from rfl, hk]
  simp only [if_pos]
  exact scanCombine_eq sch ent "and" true kvs av ha

theorem c9_witness :
    parseCriteria demoSchema demoProduct
        (.dict (pyD [("and", .list (pyL [.dict (pyD [("field", .str "stock"), ("value", .int 1)])])),
                     ("or", .list (pyL [.str "product_name:x"]))])) =
      combineArm demoSchema demoProduct true
        (.list (pyL [.dict (pyD [("field", .str "stock"), ("value", .int 1)])])) :=
  c9_and_wins_over_or demoSchema demoProduct _ _ rfl rfl

/-- C4 (amended): when every leading segment descends through a declared
relation and the final segment also names a relation (not a column), the
resolver fails with the column-not-found 400. The amendment: this holds
provided no earlier segment named a column — an earlier column segment is
remembered and returned instead (see `c4_counterexample`). -/
theorem c4_relation_tail_column_not_found (sch : Schema) (ent : EntityDesc)
    (path : String) (front : List String) (lastSeg : String)
    (ent' : EntityDesc) (t : String) (e2 : EntityDesc)
    (hsplit : strSplit path '.' = front ++ [lastSeg])
    (hwalk : walkRels sch ent front = some ent')
    (hcol : lookupCol lastSeg ent' = Option.none)
    (hrel : lookupRel lastSeg ent' = some t)
    (hent : lookupEnt t sch = some e2) :
    getColumnByPath sch ent path =
      .error (.http 400 (columnNotFoundMsg path)) := by
  rw [getColumnByPath, hsplit, goPath_walk sch path front ent ent' hwalk [lastSeg]]
  simp only [goPath, hcol, hrel, hent]

theorem c4_witness :
    getColumnByPath demoSchema demoProduct "category" =
      .error (.http 400 (columnNotFoundMsg "category")) :=
  c4_relation_tail_column_not_found demoSchema demoProduct "category" []
    "category" demoProduct "ProductCategory" demoCategory rfl rfl rfl rfl rfl

/-- C4 counterexample: on `"product_name.category"` the final segment
`category` names a declared relation (and not a column) of the entity the
walk is on, yet resolution returns the column matched by the earlier
non-final segment `product_name` instead of failing with ColumnNotFound. -/
theorem c4_counterexample :
    lookupCol "category" demoProduct = Option.none ∧
    lookupRel "category" demoProduct = some "ProductCategory" ∧
    getColumnByPath demoSchema demoProduct "product_name.category" =
      .ok ⟨"Product", "product_name", .pstr⟩ :=
  ⟨rfl, rfl, rfl⟩

/-- C5: along a walk through declared relations, a segment naming neither a
column nor a relation on the entity reached at that point fails with the
400 whose detail names exactly that segment and that entity; and when every
non-final segment names a declared relation and the final segment names a
column, resolution succeeds with that column (nested depth included). -/
theorem c5_unresolvable_and_nested_success :
    (∀ (sch : Schema) (ent : EntityDesc) (path : String) (front : List String)
       (bad : String) (rest : List String) (ent' : EntityDesc),
       strSplit path '.' = front ++ bad :: rest →
       walkRels sch ent front = some ent' →
       lookupCol bad ent' = Option.none →
       lookupRel bad ent' = Option.none →
       getColumnByPath sch ent path =
         .error (.http 400 (unresolvableMsg bad ent'.name))) ∧
    (∀ (sch : Schema) (ent : EntityDesc) (path : String) (front : List String)
       (lastSeg : String) (ty : PyType) (ent' : EntityDesc),
       strSplit path '.' = front ++ [lastSeg] →
       walkRels sch ent front = some ent' →
       lookupCol lastSeg ent' = some ty →
       getColumnByPath sch ent path = .ok ⟨ent'.name, lastSeg, ty⟩) := by
  constructor
  · intro sch ent path front bad rest ent' hsplit hwalk hcol hrel
    rw [getColumnByPath, hsplit, goPath_walk sch path front ent ent' hwalk (bad :: rest)]
    simp only [goPath, hcol, hrel]
  · intro sch ent path front lastSeg ty ent' hsplit hwalk hcol
    rw [getColumnByPath, hsplit, goPath_walk sch path front ent ent' hwalk [lastSeg]]
    simp only [goPath, hcol]

theorem c5_witness :
    (getColumnByPath demoSchema demoProduct "category.group.zzz" =
      .error (.http 400 (unresolvableMsg "zzz" "CategoryGroup"))) ∧
    (getColumnByPath demoSchema demoProduct "category.group.group_name" =
      .ok ⟨"CategoryGroup", "group_name", .pstr⟩) :=
  ⟨c5_unresolvable_and_nested_success.1 demoSchema demoProduct
      "category.group.zzz" ["category", "group"] "zzz" [] demoGroup
      rfl rfl rfl rfl,
   c5_unresolvable_and_nested_success.2 demoSchema demoProduct
      "category.group.group_name" ["category", "group"] "group_name" .pstr
      demoGroup rfl rfl rfl⟩

/-- C3 (amended): `in`/`not_in` with a non-sequence value always fails and
never silently coerces — but the InvalidOperatorValue 400 raised inside
`apply_operator` is caught by the method's own catch-all `except` and
re-raised wrapped in the OperatorApplicationError-style 400, so the
surfaced error is the wrapper carrying the original message as its cause
(see `c3_counterexample`). -/
theorem c3_in_nonseq_error_wrapped (col : ColumnD) (v : PyVal)
    (h : isPySeq v = false) :
    applyOperator col (.str "in") v =
      .error (.http 400 (wrapMsg "in" (colStr col)
        (pyStr (coerceValue col.pyty v))
        "400: 'in' operator requires a list/array value")) ∧
    applyOperator col (.str "not_in") v =
      .error (.http 400 (wrapMsg "not_in" (colStr col)
        (pyStr (coerceValue col.pyty v))
        "400: 'not_in' operator requires a list/array value")) := by
  have hs := coerce_not_seq col.pyty v h
  constructor
  · have hinner : applyOperatorInner col (.str "in") v =
        .error (.http 400 "'in' operator requires a list/array value") := by
      show (match coerceValue col.pyty v with
            | PyVal.list xs => Except.ok (SqlPred.pin col xs)
            | _ => Except.error (RepoError.http 400 "'in' operator requires a list/array value")) =
          Except.error (RepoError.http 400 "'in' operator requires a list/array value")
      cases hcv : coerceValue col.pyty v <;> simp_all [isPySeq]
    simp only [applyOperator, hinner, displayOp, errStr]
    rfl
  · have hinner : applyOperatorInner col (.str "not_in") v =
        .error (.http 400 "'not_in' operator requires a list/array value") := by
      show (match coerceValue col.pyty v with
            | PyVal.list xs => Except.ok (SqlPred.pnot (SqlPred.pin col xs))
            | _ => Except.error (RepoError.http 400 "'not_in' operator requires a list/array value")) =
          Except.error (RepoError.http 400 "'not_in' operator requires a list/array value")
      cases hcv : coerceValue col.pyty v <;> simp_all [isPySeq]
    simp only [applyOperator, hinner, displayOp, errStr]
    rfl

theorem c3_witness :
    applyOperator stockCol (.str "in") (.int 5) =
      .error (.http 400 (wrapMsg "in" (colStr stockCol)
        (pyStr (coerceValue stockCol.pyty (.int 5)))
        "400: 'in' operator requires a list/array value")) :=
  (c3_in_nonseq_error_wrapped stockCol (.int 5) rfl).1

/-- C3 counterexample: the surfaced error for `in` with the integer `5` is
the catch-all wrapper, not the bare InvalidOperatorValue 400 the claim
promises. -/
theorem c3_counterexample :
    applyOperator stockCol (.str "in") (.int 5) =
      .error (.http 400 "Error applying operator 'in' to field 'Product.stock' with value '5': 400: 'in' operator requires a list/array value") ∧
    applyOperator stockCol (.str "in") (.int 5) ≠
      .error (.http 400 "'in' operator requires a list/array value") := by
  refine ⟨rfl, ?_⟩
  intro hbad
  have h0 : applyOperator stockCol (.str "in") (.int 5) =
      Except.error (RepoError.http 400 "Error applying operator 'in' to field 'Product.stock' with value '5': 400: 'in' operator requires a list/array value") := rfl
  rw [h0] at hbad
  injection hbad with h1
  injection h1 with h2 h3
  exact absurd h3 (by decide)

/-- C7 counterexample: a boolean raw value on an integer column is kept
as-is — `isinstance(True, int)` holds in Python, so the direct conversion
(which would succeed and yield `1`) is never attempted, contradicting the
claim's "every other column type attempts a direct conversion of the raw
value". -/
theorem c7_counterexample :
    coerceValue .pint (.bool true) = .bool true ∧
    pyConvert .pint (.bool true) = some (.int 1) ∧
    PyVal.bool true ≠ PyVal.int 1 :=
  ⟨rfl, rfl, by decide⟩

/-- C7 (amended): boolean columns map strings through the case-insensitive
`true/1/yes` test; string columns never coerce; any other column type first
keeps a value that is already an instance of the declared type (booleans
count as `int` instances) and otherwise attempts the direct conversion,
silently keeping the original value when the conversion fails — coercion
itself never raises. -/
theorem c7_coercion_policy :
    (∀ s : String, coerceValue .pbool (.str s) =
      .bool (decide (strLower s = "true" ∨ strLower s = "1" ∨ strLower s = "yes"))) ∧
    (∀ v : PyVal, coerceValue .pstr v = v) ∧
    (∀ v : PyVal, isInstanceOf v .pint = true → coerceValue .pint v = v) ∧
    (∀ (v w : PyVal), isInstanceOf v .pint = false → pyConvert .pint v = some w →
      coerceValue .pint v = w) ∧
    (∀ v : PyVal, isInstanceOf v .pint = false → pyConvert .pint v = Option.none →
      coerceValue .pint v = v) := by
  refine ⟨fun s => rfl, fun v => rfl, ?_, ?_, ?_⟩
  · intro v h
    have c1 : ¬(PyType.pint = PyType.pbool ∧ ¬ isInstanceOf v .pbool = true) :=
      fun hh => PyType.noConfusion hh.1
    have c2 : ¬(PyType.pint ≠ PyType.pstr ∧ ¬ isInstanceOf v .pint = true) :=
      fun hh => hh.2 h
    rw [coerceValue, if_neg c1, if_neg c2]
  · intro v w h hc
    have c1 : ¬(PyType.pint = PyType.pbool ∧ ¬ isInstanceOf v .pbool = true) :=
      fun hh => PyType.noConfusion hh.1
    have c2 : PyType.pint ≠ PyType.pstr ∧ ¬ isInstanceOf v .pint = true :=
      ⟨by decide, by rw [h]; exact Bool.false_ne_true⟩
    rw [coerceValue, if_neg c1, if_pos c2, tryConvert, hc]
  · intro v h hc
    have c1 : ¬(PyType.pint = PyType.pbool ∧ ¬ isInstanceOf v .pbool = true) :=
      fun hh => PyType.noConfusion hh.1
    have c2 : PyType.pint ≠ PyType.pstr ∧ ¬ isInstanceOf v .pint = true :=
      ⟨by decide, by rw [h]; exact Bool.false_ne_true⟩
    rw [coerceValue, if_neg c1, if_pos c2, tryConvert, hc]

theorem c7_witness :
    coerceValue .pbool (.str "Yes") = .bool true ∧
    coerceValue .pstr (.int 7) = .int 7 ∧
    coerceValue .pint (.bool true) = .bool true ∧
    coerceValue .pint (.str "42") = .int 42 ∧
    coerceValue .pint (.str "4x") = .str "4x" := by
  refine ⟨?_, c7_coercion_policy.2.1 (.int 7),
    c7_coercion_policy.2.2.1 (.bool true) rfl,
    c7_coercion_policy.2.2.2.1 (.str "42") (.int 42) rfl rfl,
    c7_coercion_policy.2.2.2.2 (.str "4x") rfl rfl⟩
  rw [c7_coercion_policy.1 "Yes"]
  decide

theorem charsLead_refl : ∀ l : List Char, charsLead l l = true := by
  intro l
  induction l with
  | nil => rfl
  | cons c cs ih => simp [charsLead, ih]

theorem strContainsCI_refl (s : String) : strContainsCI s s = true := by
  rw [strContainsCI]
  cases h : (strLower s).data with
  | nil => simp [charsInfix]
  | cons c cs => simp [charsInfix, charsLead_refl]

/-- C6: an `and` composite over three sub-expressions parses to the
conjunction of their predicates and matches exactly the rows matching all
three; an `or` composite to the disjunction, matching exactly the rows
matching at least one. The sub-expressions are arbitrary criteria, so this
holds at every nesting depth. -/
theorem c6_and_or_composites (sch : Schema) (ent : EntityDesc)
    (a b c : PyVal) (pa pb pc : SqlPred)
    (ha : parseCriteria sch ent a = .ok pa)
    (hb : parseCriteria sch ent b = .ok pb)
    (hc : parseCriteria sch ent c = .ok pc) :
    (parseCriteria sch ent
        (.dict (.dcons "and" (.list (.cons a (.cons b (.cons c .nil)))) .dnil)) =
        .ok (.pand pa (.pand pb pc)) ∧
      ∀ row : Row, evalPred (.pand pa (.pand pb pc)) row =
        (evalPred pa row && evalPred pb row && evalPred pc row)) ∧
    (parseCriteria sch ent
        (.dict (.dcons "or" (.list (.cons a (.cons b (.cons c .nil)))) .dnil)) =
        .ok (.por pa (.por pb pc)) ∧
      ∀ row : Row, evalPred (.por pa (.por pb pc)) row =
        (evalPred pa row || evalPred pb row || evalPred pc row)) := by
  have hch : parseChildren sch ent (.cons a (.cons b (.cons c .nil))) =
      .ok [pa, pb, pc] := by
    simp only [parseChildren, ha, hb, hc]
  constructor
  · constructor
    · have e1 : parseCriteria sch ent
          (.dict (.dcons "and" (.list (.cons a (.cons b (.cons c .nil)))) .dnil)) =
          combineArm sch ent true (.list (.cons a (.cons b (.cons c .nil)))) := rfl
      rw [e1, show combineArm sch ent true (.list (.cons a (.cons b (.cons c .nil)))) =
          (match parseChildren sch ent (.cons a (.cons b (.cons c .nil))) with
           | .ok ps => Except.ok (if true then andOf ps else orOf ps)
           | .error e => Except.error e) from rfl, hch]
      rfl
    · intro row
      show (evalPred pa row && (evalPred pb row && evalPred pc row)) = _
      rw [Bool.and_assoc]
  · constructor
    · have e1 : parseCriteria sch ent
          (.dict (.dcons "or" (.list (.cons a (.cons b (.cons c .nil)))) .dnil)) =
          combineArm sch ent false (.list (.cons a (.cons b (.cons c .nil)))) := rfl
      rw [e1, show combineArm sch ent false (.list (.cons a (.cons b (.cons c .nil)))) =
          (match parseChildren sch ent (.cons a (.cons b (.cons c .nil))) with
           | .ok ps => Except.ok (if false then andOf ps else orOf ps)
           | .error e => Except.error e) from rfl, hch]
      rfl
    · intro row
      show (evalPred pa row || (evalPred pb row || evalPred pc row)) = _
      rw [Bool.or_assoc]

theorem c6_witness :
    parseCriteria demoSchema demoProduct
        (.dict (.dcons "and"
          (.list (.cons (.dict (pyD [("field", .str "stock"), ("operator", .str ">"), ("value", .int 1)]))
            (.cons (.dict (pyD [("field", .str "product_name"), ("value", .str "x")]))
              (.cons (.str "is_active:yes") .nil)))) .dnil)) =
      .ok (.pand (.gt stockCol (.int 1))
        (.pand (.eq prodNameCol (.str "x"))
          (.eq ⟨"Product", "is_active", .pbool⟩ (.bool true)))) :=
  (c6_and_or_composites demoSchema demoProduct
    (.dict (pyD [("field", .str "stock"), ("operator", .str ">"), ("value", .int 1)]))
    (.dict (pyD [("field", .str "product_name"), ("value", .str "x")]))
    (.str "is_active:yes")
    (.gt stockCol (.int 1)) (.eq prodNameCol (.str "x"))
    (.eq ⟨"Product", "is_active", .pbool⟩ (.bool true)) rfl rfl rfl).1.1

/-- C2 counterexample: on the string column `product_name`, "field equals
'paid'" encoded as a structured leaf (or, identically, as a 2-element
sequence) yields an exact-equality predicate, while the legacy string
`"product_name:paid"` yields a case-insensitive substring predicate; over
a row whose cell is `"unpaid"` the former does not match and the latter
does, so the encodings do not filter identically. -/
theorem c2_counterexample :
    parseCriteria demoSchema demoProduct
        (.dict (pyD [("field", .str "product_name"), ("value", .str "paid")])) =
      .ok (.eq prodNameCol (.str "paid")) ∧
    parseCriteria demoSchema demoProduct (.str "product_name:paid") =
      .ok (.pilike prodNameCol "paid") ∧
    evalPred (.eq prodNameCol (.str "paid")) rowUnpaid = false ∧
    evalPred (.pilike prodNameCol "paid") rowUnpaid = true :=
  ⟨rfl, rfl, rfl, rfl⟩

/-- C2 (amended): for a string-typed column `X` and value `V`, the
structured leaf and the 2-element sequence encodings parse to the same
exact-equality predicate (hence filter identically), while the legacy
`"X:V"` encoding parses to a case-insensitive substring predicate, which
matches every row the equality predicate matches — but possibly more
(see `c2_counterexample`). The string hypotheses pin the legacy split:
`X ++ ":" ++ V` holds no comma, needs no stripping, carries no
`and(`/`or(` wrapper, and splits at the first colon into `X` and `V`. -/
theorem c2_three_encodings (sch : Schema) (ent : EntityDesc) (X V : String)
    (col : ColumnD)
    (hcol : getColumnByPath sch ent X = .ok col)
    (hty : col.pyty = .pstr)
    (h3 : strSplit (X ++ ":" ++ V) ',' = [X ++ ":" ++ V])
    (h4 : strStrip (X ++ ":" ++ V) = X ++ ":" ++ V)
    (h5 : strStarts (X ++ ":" ++ V) "and(" = false)
    (h6 : strStarts (X ++ ":" ++ V) "or(" = false)
    (h7 : strSplitFirst (X ++ ":" ++ V) ':' = some (X, V)) :
    parseCriteria sch ent (.dict (pyD [("field", .str X), ("value", .str V)])) =
      .ok (.eq col (.str V)) ∧
    parseCriteria sch ent (.list (pyL [.str X, .str V])) =
      .ok (.eq col (.str V)) ∧
    parseCriteria sch ent (.str (X ++ ":" ++ V)) = .ok (.pilike col V) ∧
    ∀ row : Row, evalPred (.eq col (.str V)) row = true →
      evalPred (.pilike col V) row = true := by
  obtain ⟨ce, cn, cty⟩ := col
  simp only [ColumnD.pyty] at hty
  subst hty
  have estruct : parseCriteria sch ent
      (.dict (pyD [("field", .str X), ("value", .str V)])) =
      Except.bind (getColumnByPath sch ent X)
        (fun c => applyOperator c (.str "=") (.str V)) := rfl
  have elist : parseCriteria sch ent (.list (pyL [.str X, .str V])) =
      Except.bind (getColumnByPath sch ent X)
        (fun c => applyOperator c (.str "=") (.str V)) := rfl
  have eapply : applyOperator ⟨ce, cn, PyType.pstr⟩ (.str "=") (.str V) =
      .ok (.eq ⟨ce, cn, PyType.pstr⟩ (.str V)) := rfl
  refine ⟨?_, ?_, ?_, ?_⟩
  · rw [estruct, hcol]
    exact eapply
  · rw [elist, hcol]
    exact eapply
  · have c1 : ¬(strStarts (X ++ ":" ++ V) "and(" = true ∧
        strEnds (X ++ ":" ++ V) ")" = true) :=
      fun hh => absurd hh.1 (by rw [h5]; exact Bool.false_ne_true)
    have c2 : ¬(strStarts (X ++ ":" ++ V) "or(" = true ∧
        strEnds (X ++ ":" ++ V) ")" = true) :=
      fun hh => absurd hh.1 (by rw [h6]; exact Bool.false_ne_true)
    have elegacy : parseCriteria sch ent (.str (X ++ ":" ++ V)) =
        parseLegacyCriteria sch ent (X ++ ":" ++ V) := rfl
    rw [elegacy, parseLegacyCriteria, if_neg c1, if_neg c2, h3]
    have epart : parsePartsStr sch ent [X ++ ":" ++ V] =
        Except.bind (parseConditionStr sch ent (strStrip (X ++ ":" ++ V)))
          (fun pr => Except.bind (parsePartsStr sch ent [])
            (fun rest => Except.ok (pr :: rest))) := rfl
    have econd : parseConditionStr sch ent (X ++ ":" ++ V) =
        Except.bind (getColumnByPath sch ent X) (fun cl =>
          match cl.pyty with
          | PyType.pstr => Except.ok (SqlPred.pilike cl V)
          | PyType.pbool => Except.ok (.eq cl (.bool (isTrueWord V)))
          | PyType.pint =>
              match pyConvert .pint (.str V) with
              | some v => Except.ok (.eq cl v)
              | Option.none =>
                  Except.error (.http 400 (invalidValueMsg V X))) := by
      rw [parseConditionStr, h7]
      rfl
    rw [epart, h4, econd, hcol]
    rfl
  · intro row h
    simp only [evalPred, Bool.and_eq_true] at h
    obtain ⟨⟨hnn, _⟩, h2⟩ := h
    cases hcell : getCell row ⟨ce, cn, PyType.pstr⟩ with
    | str a =>
        rw [hcell] at h2
        simp only [pyEq, decide_eq_true_eq] at h2
        subst h2
        simp only [evalPred, hcell, isNone, Bool.not_false, Bool.true_and, pyStr]
        exact strContainsCI_refl _
    | none => rw [hcell] at hnn; simp [isNone] at hnn
    | bool b => rw [hcell] at h2; simp [pyEq] at h2
    | int n => rw [hcell] at h2; simp [pyEq] at h2
    | list xs => rw [hcell] at h2; simp [pyEq] at h2
    | dict kvs => rw [hcell] at h2; simp [pyEq] at h2

theorem c2_witness :
    parseCriteria demoSchema demoProduct (.str "product_name:paid") =
      .ok (.pilike prodNameCol "paid") ∧
    evalPred (.eq prodNameCol (.str "paid")) rowPaid = true ∧
    evalPred (.pilike prodNameCol "paid") rowPaid = true := by
  have h := c2_three_encodings demoSchema demoProduct "product_name" "paid"
    prodNameCol rfl rfl rfl rfl rfl rfl rfl
  exact ⟨h.2.2.1, rfl, h.2.2.2 rowPaid rfl⟩
